import Mathlib

/-!
Shallow embedding of the consumer core of `khevse/go-lib`
(`src/kafka/consumer/group.go`): the `Group` supervisor and the `Consumer`
event-loop worker.  Broker interactions (`Committed`, `Assign`,
`CommitOffsets`, `Resume`, `GetMetadata`, ...) are modelled by explicit
result parameters, and the observable side effects of each operation are
recorded in result records or effect traces.  The offset tracker
(`offset`), `checkPartitions` and `getPartitionKey` are declared in files
of the repository that are not part of `src/`; they are modelled from the
specification and marked as such.
-/

namespace GoLib

/-- A Go `error` value, modelled by its message; `none` is Go's `nil`. -/
abbrev KErr := String

/-- `kafka.TopicPartition`: `Topic *string`, `Partition int32`,
`Offset int64` (`-1001` is the UNSET sentinel), `Error error`. -/
structure TopicPartition where
  topic : Option String
  partition : Int
  offset : Int
  err : Option KErr
deriving Repr, DecidableEq

/-- The Kafka client's sentinel for an unknown offset (`kafka.OffsetInvalid`). -/
def unsetOffset : Int := -1001

/-- Modelled from the spec: `checkPartitions` is declared outside `src/`.
Spec §4.5: "A pure function: given a list of partition descriptors, return
the first embedded error found, or none." -/
def checkPartitions : List TopicPartition → Option KErr
  | [] => none
  | tp :: rest =>
    match tp.err with
    | some e => some e
    | none => checkPartitions rest

/-- A lookup key of the offset tracker: spec §3, "a pair
(topic, partition-id); equality is structural".  The topic keeps the
`*string` shape of `TopicPartition.Topic`. -/
abbrev PartitionKey := Option String × Int

/-- Modelled from the spec: `getPartitionKey` is declared outside `src/`.
It forms the tracker lookup key from a descriptor's topic and partition. -/
def getPartitionKey (topic : Option String) (p : Int) : PartitionKey :=
  (topic, p)

/-- Modelled from the spec: the offset tracker (the source's `offset` type,
`newOffset`) is declared outside `src/`.  Spec §3/§4.1: a mapping
`PartitionKey → (highest-offset-seen, processed-count)`; modelled as an
association list with unique keys (a Go map). -/
structure OffsetTracker where
  entries : List (PartitionKey × Int × Nat)
deriving Repr, DecidableEq

/-- Modelled from the spec: `newOffset` returns an empty tracker. -/
def newOffset : OffsetTracker := ⟨[]⟩

/-- Update the first entry holding key `k` to offset `off` with its count
incremented, or append a fresh entry with count 1 (Go map insert). -/
def bumpEntry (k : PartitionKey) (off : Int) :
    List (PartitionKey × Int × Nat) → List (PartitionKey × Int × Nat)
  | [] => [(k, off, 1)]
  | e :: rest =>
    if e.1 = k then (k, off, e.2.2 + 1) :: rest
    else e :: bumpEntry k off rest

/-- Modelled from the spec: `Add` — "ensure an entry exists for the key; set
its offset to the argument verbatim; increment processed-count" (§4.1). -/
def OffsetTracker.add (t : OffsetTracker) (tp : TopicPartition) : OffsetTracker :=
  ⟨bumpEntry (getPartitionKey tp.topic tp.partition) tp.offset t.entries⟩

/-- Modelled from the spec: the list half of `Get()` — the snapshot handed
to the commit RPC, one descriptor per tracked key. -/
def OffsetTracker.snapshot (t : OffsetTracker) : List TopicPartition :=
  t.entries.map (fun e => ⟨e.1.1, e.1.2, e.2.1, none⟩)

/-- Modelled from the spec: the map half of `Get()` — processed-count per
key (0 when the key is absent). -/
def OffsetTracker.countOf (t : OffsetTracker) (k : PartitionKey) : Nat :=
  match t.entries.find? (fun e => e.1 = k) with
  | some e => e.2.2
  | none => 0

/-- Modelled from the spec: `Remove` — "delete the entry with the matching
key regardless of offset value" (§4.1). -/
def OffsetTracker.remove (t : OffsetTracker) (tp : TopicPartition) : OffsetTracker :=
  ⟨t.entries.filter (fun e => e.1 ≠ getPartitionKey tp.topic tp.partition)⟩

/-- Modelled from the spec: `Clear` — "remove all entries" (§4.1). -/
def OffsetTracker.clear (_ : OffsetTracker) : OffsetTracker := ⟨[]⟩

/-- Modelled from the spec: `Counter` — "total processed count across all
entries" (§4.1). -/
def OffsetTracker.counter (t : OffsetTracker) : Nat :=
  (t.entries.map (fun e => e.2.2)).sum

/-- One invocation of the user's `OnCommit` callback
(`topic`, `partition`, `offset`, `committed count` arguments). -/
structure CommitCall where
  topic : String
  partition : Int
  offset : Int
  committed : Nat
deriving Repr, DecidableEq

/-- Observable outcome of one `Consumer.commitOffsets` run
(group.go:536-572). -/
structure CommitResult where
  tracker : OffsetTracker
  onCommits : List CommitCall
  rpcCalled : Bool
  rpcArg : List TopicPartition
  onErrorCalled : Bool
deriving Repr, DecidableEq

/-- The success loop of `commitOffsets` (group.go:559-570): for each
returned descriptor, `Remove` it from the tracker, carry the last non-nil
topic forward, and invoke `OnCommit` with the snapshot count for its key. -/
def commitLoop (counts : PartitionKey → Nat) :
    List TopicPartition → String → OffsetTracker → OffsetTracker × List CommitCall
  | [], _, tr => (tr, [])
  | item :: rest, topic, tr =>
    let tr1 := tr.remove item
    let topic1 := match item.topic with
      | some t => t
      | none => topic
    let call : CommitCall :=
      ⟨topic1, item.partition, item.offset,
        counts (getPartitionKey item.topic item.partition)⟩
    let r := commitLoop counts rest topic1 tr1
    (r.1, call :: r.2)

/-- `Consumer.commitOffsets` (group.go:536-572).  `rpc` models
`reader.CommitOffsets`: the broker's response to the snapshot list.
If the snapshot is empty nothing happens; an RPC error or an embedded
partition error aborts (logged, `OnError`) before any `Remove`/`OnCommit`. -/
def commitOffsets (rpc : List TopicPartition → Except KErr (List TopicPartition))
    (tr : OffsetTracker) : CommitResult :=
  let list := tr.snapshot
  if list.isEmpty then
    ⟨tr, [], false, [], false⟩
  else
    match rpc list with
    | .error _ => ⟨tr, [], true, list, true⟩
    | .ok success =>
      match checkPartitions success with
      | some _ => ⟨tr, [], true, list, true⟩
      | none =>
        let r := commitLoop (fun k => tr.countOf k) success "" tr
        ⟨r.1, r.2, true, list, false⟩

/-- Observable outcome of one `Consumer.handleMessage` run
(group.go:470-495).  `result` is the handler's return value (`some` makes
the event loop terminate), `countFlush` records whether the count-based
`commitOffsets` at group.go:487-491 ran. -/
structure MessageResult where
  tracker : OffsetTracker
  result : Option KErr
  countFlush : Bool
  onCommits : List CommitCall
deriving Repr, DecidableEq

/-- `Consumer.handleMessage` (group.go:470-495).  `onProcessResult` models
the value returned by the user's `OnProcess` callback; `rpc` models
`reader.CommitOffsets` as in `commitOffsets`.  `commitOffsetCount` is a Go
`int`, hence `Int` here. -/
def handleMessage (commitOffsetCount : Int)
    (rpc : List TopicPartition → Except KErr (List TopicPartition))
    (onProcessResult : Option KErr) (msg : TopicPartition)
    (tr : OffsetTracker) : MessageResult :=
  match msg.err with
  | some e => ⟨tr, some e, false, []⟩
  | none =>
    match onProcessResult with
    | some e => ⟨tr, some e, false, []⟩
    | none =>
      let tr1 := tr.add msg
      if commitOffsetCount > 0 then
        if (tr1.counter : Int) ≥ commitOffsetCount then
          let cr := commitOffsets rpc tr1
          ⟨cr.tracker, none, true, cr.onCommits⟩
        else ⟨tr1, none, false, []⟩
      else ⟨tr1, none, false, []⟩

/-- The offset reconciliation loop of `Consumer.handleRebalance`
(group.go:426-431): every committed offset that is `≥ 0` is incremented by
one; the others (including `-1001`) are untouched. -/
def reconcile (l : List TopicPartition) : List TopicPartition :=
  l.map (fun tp => if tp.offset ≥ 0 then { tp with offset := tp.offset + 1 } else tp)

/-- Observable outcome of one `Consumer.handleRebalance` run
(group.go:402-443).  `committedFetch` records the arguments of the
`reader.Committed` call when it happened (partitions, timeout in ms);
`assignArg` records the argument of `reader.Assign` when it was called. -/
structure RebalanceResult where
  result : Option KErr
  tracker : OffsetTracker
  committedFetch : Option (List TopicPartition × Nat)
  assignArg : Option (List TopicPartition)
  onRebalanceCalled : Bool
deriving Repr, DecidableEq

/-- `Consumer.handleRebalance` (group.go:402-443).  `rpc` models
`reader.CommitOffsets` (for the leading flush), `committed` models the
broker's answer to `reader.Committed(e.Partitions, 5000)`, `assignErr`
models the result of `reader.Assign`. -/
def handleRebalance (rpc : List TopicPartition → Except KErr (List TopicPartition))
    (committed : Except KErr (List TopicPartition)) (assignErr : Option KErr)
    (parts : List TopicPartition) (tr : OffsetTracker) : RebalanceResult :=
  let cr := commitOffsets rpc tr
  let tr1 := cr.tracker.clear
  match checkPartitions parts with
  | some e => ⟨some e, tr1, none, none, false⟩
  | none =>
    match committed with
    | .error e => ⟨some e, tr1, some (parts, 5000), none, false⟩
    | .ok committedOffsets =>
      let reconciled := reconcile committedOffsets
      match assignErr with
      | some e => ⟨some e, tr1, some (parts, 5000), some reconciled, false⟩
      | none => ⟨none, tr1, some (parts, 5000), some reconciled, true⟩

/-- What one event-loop iteration does with the value a handler returned
(group.go:356-360): `some` errors exit the loop carrying the error. -/
inductive StepOutcome where
  | next (tr : OffsetTracker)
  | exitErr (e : KErr)
deriving Repr, DecidableEq

/-- The `kafka.AssignedPartitions` arm of `Consumer.listen`
(group.go:356-360): run `handleRebalance`; a non-nil error terminates the
loop with that error. -/
def listenStepAssigned
    (rpc : List TopicPartition → Except KErr (List TopicPartition))
    (committed : Except KErr (List TopicPartition)) (assignErr : Option KErr)
    (parts : List TopicPartition) (tr : OffsetTracker) : StepOutcome :=
  let r := handleRebalance rpc committed assignErr parts tr
  match r.result with
  | some e => .exitErr e
  | none => .next r.tracker

/-- The two lifecycle states broadcast through the observable
(`StateRun`, `StateClosed`). -/
inductive CState where
  | run
  | closed
deriving Repr, DecidableEq

/-- How the body of the event loop ends, seen from `Start`
(group.go:253): a normal return from `listen`, or a panic that unwinds
out of it (or out of a user callback it invoked). -/
inductive LoopOutcome where
  | ret (e : Option KErr)
  | panicked (v : String)
deriving Repr, DecidableEq

/-- Observable outcome of one `Consumer.Start` call (group.go:221-254). -/
structure StartResult where
  notifs : List CState
  ret : Option KErr
  brokerTouched : Bool
  recovered : Bool
deriving Repr, DecidableEq

/-- `Consumer.Start` (group.go:221-254).  `alreadyClosed` is whether the
consumer's context was already cancelled at the `select` (group.go:241).
Deferred in order: notify `StateClosed` (223, runs last),
`ctxCancel`+unlock (226-229), `wg.Done` (232), the `recover` block
(235-239, runs first).  The recover only logs; `Start` has an unnamed
`error` result, so after a recovered panic the zero value `nil` is
returned.  On the already-closed path `listen` is never entered, so no
broker operation happens, yet the deferred `StateClosed` notification
still fires. -/
def consumerStart (alreadyClosed : Bool) (outcome : LoopOutcome) : StartResult :=
  if alreadyClosed then
    ⟨[.closed], some "consumer already closed", false, false⟩
  else
    match outcome with
    | .ret e => ⟨[.run, .closed], e, true, false⟩
    | .panicked _ => ⟨[.run, .closed], none, true, true⟩

/-- An external action on one consumer: a `Start` call whose loop would end
with `outcome`, or a `Stop` call (group.go:256-264, cancels the context). -/
inductive LAction where
  | start (outcome : LoopOutcome)
  | stop
deriving Repr, DecidableEq

/-- The observable-notification stream of a whole consumer lifecycle: a
sequence of `Start`/`Stop` calls, threaded through the closed flag.  Every
`Start` leaves the context cancelled behind it (the deferred `ctxCancel`
at group.go:227), as does every `Stop` (group.go:258). -/
def lifecycleNotifs : List LAction → Bool → List CState
  | [], _ => []
  | .stop :: rest, _ => lifecycleNotifs rest true
  | .start o :: rest, closed =>
    (consumerStart closed o).notifs ++ lifecycleNotifs rest true

/-- Number of `Start` calls in a lifecycle. -/
def countStarts : List LAction → Nat
  | [] => 0
  | .start _ :: rest => countStarts rest + 1
  | .stop :: rest => countStarts rest

/-- The shutdown steps observable on exit of the event loop. -/
inductive SEffect where
  | tickerStop
  | flushCommit
  | unsubscribe
  | unassign
  | closeReader
  | notifyClosed
deriving Repr, DecidableEq

/-- The shutdown path of `Consumer.listen` and `Consumer.Start`: the defers
of `listen` run LIFO — `offsetsTicker.Stop()` (registered at group.go:343),
then `commitOffsets` (335), then the block of group.go:314-332
(`Unsubscribe`, `Unassign` only when `Unsubscribe` returned nil, and
`reader.Close`); after `listen` returns, `Start`'s deferred
`notify(StateClosed)` (223) runs last.  Every failure is only logged. -/
def shutdownTrace (unsubscribeErr : Option KErr) : List SEffect :=
  [.tickerStop, .flushCommit, .unsubscribe] ++
    (if unsubscribeErr.isNone then [.unassign] else []) ++
    [.closeReader, .notifyClosed]

/-- `errors.Wrap` of github.com/pkg/errors: returns nil when `err` is nil,
otherwise annotates the error with the message. -/
def errorsWrap (e : Option KErr) (msg : String) : Option KErr :=
  match e with
  | none => none
  | some s => some (msg ++ ": " ++ s)

/-- Capacity of the channel collecting worker results in `Group.Start`
(group.go:79): `g.consumers.Len() + 1`, the extra slot for the
context-closed send. -/
def retvalCapacity (n : Nat) : Nat := n + 1

/-- One value arriving on `Group.Start`'s result channel: either the nil
sent when the group context fires (group.go:81-84) or a worker's terminal
result (group.go:90). -/
inductive ADone where
  | cancelTok
  | worker (e : Option KErr)
deriving Repr, DecidableEq

/-- The first receive on the result channel (group.go:95). -/
def firstResult : List ADone → Option KErr
  | [] => none
  | .cancelTok :: _ => none
  | .worker e :: _ => e

/-- Observable outcome of one `Group.Start` call (group.go:61-96). -/
structure GroupStartResult where
  ret : Option KErr
  launched : Nat
  stopsSignalled : Nat
deriving Repr, DecidableEq

/-- `Group.Start` (group.go:61-96) over a group of `n` consumers.
`closed` is whether `g.ctx` was already done at the `select`
(group.go:66-71): that branch returns `errors.Wrap(err, ...)` where the
named return `err` is still nil — so nil — before the stopping defer is
even installed.  Otherwise every consumer is launched on its own
goroutine, the first channel arrival is returned, and the defer installed
at group.go:73-77 calls `Stop` on every consumer before returning. -/
def groupStart (n : Nat) (closed : Bool) (arrivals : List ADone) : GroupStartResult :=
  if closed then
    ⟨errorsWrap none "consumers group already closed", 0, 0⟩
  else
    ⟨firstResult arrivals, n, n⟩

/-- The effects observable from the resume goroutine spawned by
`Consumer.Sleep` (group.go:278-302). -/
inductive RsEffect where
  | logStopped
  | resume
  | logResumeErr
  | metadataProbe (topic : Option String)
  | logMetadataErr (topic : Option String)
deriving Repr, DecidableEq

/-- The goroutine body spawned by `Consumer.Sleep` (group.go:278-302):
after the delay it checks the consumer's context ONCE; when cancelled it
only logs, otherwise it calls `reader.Resume` (logging a failure) and then
probes `GetMetadata` for every partition's topic (logging failures),
with no further cancellation check.  `cancelled` is the state of the
context at the `select` (group.go:280); `resumeErr` models
`reader.Resume`'s result; `metadataErr` models `GetMetadata` per topic. -/
def sleepResumeTask (cancelled : Bool) (resumeErr : Option KErr)
    (metadataErr : Option String → Option KErr)
    (partitions : List TopicPartition) : List RsEffect :=
  if cancelled then [.logStopped]
  else
    .resume :: ((if resumeErr.isSome then [.logResumeErr] else []) ++
      (partitions.map (fun p =>
        .metadataProbe p.topic ::
          (if (metadataErr p.topic).isSome then [RsEffect.logMetadataErr p.topic] else []))).flatten)

/-! ## Helper lemmas -/

theorem bumpEntry_counts_sum (k : PartitionKey) (off : Int)
    (l : List (PartitionKey × Int × Nat)) :
    ((bumpEntry k off l).map (fun e => e.2.2)).sum
      = (l.map (fun e => e.2.2)).sum + 1 := by
  induction l with
  | nil => simp [bumpEntry]
  | cons e rest ih =>
    by_cases h : e.1 = k
    · simp [bumpEntry, h]
      ring
    · simp [bumpEntry, h, ih]
      ring

theorem OffsetTracker.counter_add (t : OffsetTracker) (tp : TopicPartition) :
    (t.add tp).counter = t.counter + 1 :=
  bumpEntry_counts_sum _ _ _

theorem commitLoop_tracker (counts : PartitionKey → Nat)
    (l : List TopicPartition) (topic : String) (tr : OffsetTracker) :
    (commitLoop counts l topic tr).1
      = l.foldl (fun t i => t.remove i) tr := by
  induction l generalizing topic tr with
  | nil => rfl
  | cons item rest ih => simp [commitLoop, ih, List.foldl_cons]

theorem commitLoop_length (counts : PartitionKey → Nat)
    (l : List TopicPartition) (topic : String) (tr : OffsetTracker) :
    (commitLoop counts l topic tr).2.length = l.length := by
  induction l generalizing topic tr with
  | nil => rfl
  | cons item rest ih => simp [commitLoop, ih]

theorem lifecycleNotifs_closed_count (actions : List LAction) (b : Bool) :
    (lifecycleNotifs actions b).count CState.closed = countStarts actions := by
  induction actions generalizing b with
  | nil => rfl
  | cons a rest ih =>
    cases a with
    | stop => simpa [lifecycleNotifs, countStarts] using ih true
    | start o =>
      cases b <;> cases o <;>
        simp [lifecycleNotifs, countStarts, consumerStart, ih true,
          List.count_append, List.count_cons]

/-! ## Claims -/

/-- C1: for every `AssignedPartitions` event, before `Assign` the consumer
fetches the committed offsets for the assigned partition set with a
5-second timeout, increments every returned offset `≥ 0` by exactly 1,
leaves offsets `< 0` (including UNSET = `-1001`) unchanged, and calls
`Assign` with that reconciled list; a failed fetch terminates the loop
with that error.  In particular, for `AssignedPartitions{(T,0,-1001)}`
with committed offset `(T,0,41)`, `Assign` is called with `(T,0,42)`. -/
theorem c1_rebalance_reconciliation
    (rpc : List TopicPartition → Except KErr (List TopicPartition))
    (assignErr : Option KErr) (parts : List TopicPartition)
    (tr : OffsetTracker) (hok : checkPartitions parts = none) :
    (∀ l : List TopicPartition,
      (handleRebalance rpc (.ok l) assignErr parts tr).committedFetch
        = some (parts, 5000) ∧
      (handleRebalance rpc (.ok l) assignErr parts tr).assignArg
        = some (l.map (fun tp =>
            if tp.offset ≥ 0 then { tp with offset := tp.offset + 1 } else tp))) ∧
    (∀ e : KErr,
      (handleRebalance rpc (.error e) assignErr parts tr).assignArg = none ∧
      listenStepAssigned rpc (.error e) assignErr parts tr = .exitErr e) ∧
    ((handleRebalance rpc (.ok [⟨some "T", 0, 41, none⟩]) none
        [⟨some "T", 0, unsetOffset, none⟩] tr).assignArg
      = some [⟨some "T", 0, 42, none⟩]) := by
  refine ⟨fun l => ?_, fun e => ?_, ?_⟩
  · cases assignErr <;>
      simp [handleRebalance, hok, reconcile]
  · cases assignErr <;>
      simp [handleRebalance, listenStepAssigned, hok]
  · simp [handleRebalance, checkPartitions, reconcile, unsetOffset]

/-- C1 witness: the theorem applied to the spec's concrete scenario. -/
theorem c1_witness :
    (handleRebalance (fun l => .ok l) (.ok [⟨some "T", 0, 41, none⟩]) none
        [⟨some "T", 0, unsetOffset, none⟩] newOffset).assignArg
      = some [⟨some "T", 0, 42, none⟩] :=
  (c1_rebalance_reconciliation (fun l => .ok l) none
    [⟨some "T", 0, unsetOffset, none⟩] newOffset rfl).2.2

/-- C2 counterexample: the claim says `Closed` is notified exactly once
per lifecycle, including a second `Start` after close — but every `Start`
call runs the deferred `StateClosed` notification, so the lifecycle
`[Start, Start]` observes `Closed` twice (the second without a `Run`). -/
theorem c2_counterexample :
    lifecycleNotifs [LAction.start (.ret none), LAction.start (.ret none)] false
      = [CState.run, CState.closed, CState.closed] ∧
    ¬ ((lifecycleNotifs [LAction.start (.ret none), LAction.start (.ret none)]
        false).count CState.closed = 1) := by
  constructor
  · rfl
  · decide

/-- C2 amended: `Closed` is notified exactly once per `Start` call, not
per lifecycle: a `Start` on a not-yet-closed consumer notifies `Run` then
`Closed`; a `Start` on an already-closed consumer notifies `Closed` alone;
over any lifecycle the number of `Closed` notifications equals the number
of `Start` calls. -/
theorem c2_closed_per_start (actions : List LAction) :
    (∀ o : LoopOutcome,
      (consumerStart false o).notifs = [CState.run, CState.closed]) ∧
    (∀ o : LoopOutcome, (consumerStart true o).notifs = [CState.closed]) ∧
    (lifecycleNotifs actions false).count CState.closed = countStarts actions := by
  refine ⟨fun o => ?_, fun o => ?_, lifecycleNotifs_closed_count actions false⟩
  · cases o <;> rfl
  · cases o <;> rfl

/-- C3 counterexample: the claim says a recovered panic is surfaced as a
non-nil error from `Start` — but the recover block only logs, and `Start`
has an unnamed result, so a panicking loop makes `Start` return nil. -/
theorem c3_counterexample :
    (consumerStart false (LoopOutcome.panicked "boom")).recovered = true ∧
    (consumerStart false (LoopOutcome.panicked "boom")).ret = none := by
  constructor <;> rfl

/-- C3 amended: a panic inside the event loop (or a callback it invokes)
is recovered at the boundary installed in `Start`, logged, and terminates
the loop (both lifecycle notifications still fire), but `Start` returns
nil, not an error carrying the recovered value. -/
theorem c3_panic_recovered_returns_nil (v : String) :
    (consumerStart false (.panicked v)).recovered = true ∧
    (consumerStart false (.panicked v)).ret = none ∧
    (consumerStart false (.panicked v)).notifs = [CState.run, CState.closed] :=
  ⟨rfl, rfl, rfl⟩

/-- C4 counterexample: the claim orders the final flush (step 1) before
stopping the commit ticker (step 2), but the defers run LIFO: the ticker
is stopped first, then the tracker is flushed. -/
theorem c4_counterexample :
    ¬ ((shutdownTrace none).indexOf SEffect.flushCommit
        < (shutdownTrace none).indexOf SEffect.tickerStop) := by
  decide

/-- C4 amended: on every exit of the event loop the shutdown steps run in
the order: stop the commit ticker, flush the tracker one last time,
`Unsubscribe` (then `Unassign` exactly when `Unsubscribe` succeeded),
close the reader, notify `Closed` last; failures are only logged and never
prevent the following steps. -/
theorem c4_shutdown_order (unsubscribeErr : Option KErr) :
    (shutdownTrace unsubscribeErr).indexOf SEffect.tickerStop = 0 ∧
    (shutdownTrace unsubscribeErr).indexOf SEffect.flushCommit = 1 ∧
    (shutdownTrace unsubscribeErr).indexOf SEffect.unsubscribe = 2 ∧
    (SEffect.unassign ∈ shutdownTrace unsubscribeErr ↔ unsubscribeErr = none) ∧
    SEffect.closeReader ∈ shutdownTrace unsubscribeErr ∧
    (shutdownTrace unsubscribeErr).getLast? = some SEffect.notifyClosed ∧
    (shutdownTrace unsubscribeErr).indexOf SEffect.closeReader
      < (shutdownTrace unsubscribeErr).indexOf SEffect.notifyClosed := by
  cases unsubscribeErr with
  | none => simp [shutdownTrace]
  | some e => simp [shutdownTrace]

/-- C5: `Start` on a consumer whose context is already cancelled returns
the error "consumer already closed" and never reaches `listen`, so no
broker operation (subscribe, event read, ...) is performed; this holds
whatever the loop would have done. -/
theorem c5_start_after_close (outcome : LoopOutcome) :
    (consumerStart true outcome).ret = some "consumer already closed" ∧
    (consumerStart true outcome).brokerTouched = false :=
  ⟨rfl, rfl⟩

/-- C6: `Group.Start` on a live group launches each of its `n` consumers
on its own task, returns the first arrival on the result channel — a
worker's terminal result, or nil when the cancellation token fires — and
signals every consumer to `Stop` before returning; the result channel has
capacity exactly `n + 1`, enough for all `n` worker sends plus the
cancellation send. -/
theorem c6_group_start (n : Nat) (arrivals : List ADone) :
    retvalCapacity n = n + 1 ∧
    (groupStart n false arrivals).launched = n ∧
    (groupStart n false arrivals).stopsSignalled = n ∧
    (groupStart n false arrivals).launched + 1 ≤ retvalCapacity n ∧
    (groupStart n false (ADone.cancelTok :: arrivals)).ret = none ∧
    (∀ e : Option KErr, ∀ rest : List ADone,
      (groupStart n false (ADone.worker e :: rest)).ret = e) := by
  exact ⟨rfl, rfl, rfl, le_refl _, rfl, fun e rest => rfl⟩

/-- C7: after a successfully processed message is added to the tracker,
the count-based flush fires exactly when `commitOffsetCount > 0` and the
tracker counter (the previous counter plus one) has reached it; with
`commitOffsetCount = 0` it never fires. -/
theorem c7_count_based_flush (c : Int)
    (rpc : List TopicPartition → Except KErr (List TopicPartition))
    (msg : TopicPartition) (tr : OffsetTracker) (hmsg : msg.err = none) :
    ((handleMessage c rpc none msg tr).countFlush = true ↔
      0 < c ∧ c ≤ (tr.counter : Int) + 1) ∧
    (c = 0 → (handleMessage c rpc none msg tr).countFlush = false) := by
  have hcnt : ((tr.add msg).counter : Int) = (tr.counter : Int) + 1 := by
    rw [OffsetTracker.counter_add]
    push_cast
    ring
  constructor
  · by_cases hc : 0 < c
    · by_cases hge : ((tr.add msg).counter : Int) ≥ c
      · simp [handleMessage, hmsg, hc, hge, hcnt ▸ hge]
      · rw [hcnt] at hge
        simp [handleMessage, hmsg, hc, hcnt ▸ hge, hge]
    · simp [handleMessage, hmsg, hc]
  · intro hc
    simp [handleMessage, hmsg, hc]

/-- C7 witness: the theorem applied at `commitOffsetCount = 1`, an
error-free message and the empty tracker. -/
theorem c7_witness :
    ((handleMessage 1 (fun l => .ok l) none ⟨some "T", 0, 5, none⟩
        newOffset).countFlush = true ↔
      (0 : Int) < 1 ∧ (1 : Int) ≤ (newOffset.counter : Int) + 1) ∧
    ((1 : Int) = 0 → (handleMessage 1 (fun l => .ok l) none ⟨some "T", 0, 5, none⟩
        newOffset).countFlush = false) :=
  c7_count_based_flush 1 (fun l => .ok l) ⟨some "T", 0, 5, none⟩ newOffset rfl

/-- C8 counterexample: the claim says the resume task does not re-check
the consumer's cancellation before calling `Resume` (only before the
metadata probe), so it would call `Resume` on a cancelled consumer — but
the single `select` after the delay runs before `Resume`, and on a
cancelled consumer the task performs no `Resume` at all. -/
theorem c8_counterexample :
    RsEffect.resume ∉
      sleepResumeTask true none (fun _ => none) [⟨some "T", 0, 3, none⟩] := by
  decide

/-- C8 amended: the resume task re-checks cancellation exactly once, after
the delay and BEFORE `Resume`; that one check guards `Resume` and the
metadata probes alike.  When cancelled it only logs; when not cancelled it
calls `Resume` first and then probes metadata for every paused partition,
even if `Resume` failed. -/
theorem c8_resume_guarded (resumeErr : Option KErr)
    (metadataErr : Option String → Option KErr)
    (partitions : List TopicPartition) :
    sleepResumeTask true resumeErr metadataErr partitions = [.logStopped] ∧
    ((sleepResumeTask false resumeErr metadataErr partitions).head?
      = some .resume) ∧
    (∀ p ∈ partitions,
      RsEffect.metadataProbe p.topic ∈
        sleepResumeTask false resumeErr metadataErr partitions) := by
  refine ⟨rfl, rfl, fun p hp => ?_⟩
  simp only [sleepResumeTask, if_neg (by simp : ¬ False)]
  refine List.mem_cons_of_mem _ (List.mem_append_right _ ?_)
  rw [List.mem_flatten]
  exact ⟨_, List.mem_map_of_mem _ hp, List.mem_cons_self _ _⟩

/-- C8 witness: the amended theorem applied to one concrete partition. -/
theorem c8_witness :
    RsEffect.metadataProbe (some "T") ∈
      sleepResumeTask false none (fun _ => none) [⟨some "T", 0, 3, none⟩] :=
  (c8_resume_guarded none (fun _ => none) [⟨some "T", 0, 3, none⟩]).2.2
    ⟨some "T", 0, 3, none⟩ (List.mem_singleton.mpr rfl)

/-- C9: `Group.Start` on an already-cancelled group returns nil, because
the already-closed branch wraps a nil error (`errors.Wrap(nil, msg)` is
nil), so its result is indistinguishable from a clean cancellation. -/
theorem c9_closed_group_start_nil (n : Nat) (arrivals : List ADone)
    (msg : String) :
    (groupStart n true arrivals).ret = none ∧
    errorsWrap none msg = none ∧
    (groupStart n true arrivals).ret
      = (groupStart n false [ADone.cancelTok]).ret :=
  ⟨rfl, rfl, rfl⟩

/-- C10: `commitOffsets` is atomic w.r.t. the tracker on failure: an empty
snapshot performs no RPC and invokes nothing; an RPC error or an embedded
partition error leaves the tracker untouched and invokes no `OnCommit`;
only a fully successful commit removes the returned entries (and invokes
`OnCommit` once per returned partition). -/
theorem c10_commit_atomic
    (rpc : List TopicPartition → Except KErr (List TopicPartition))
    (tr : OffsetTracker) :
    (tr.snapshot = [] →
      commitOffsets rpc tr = ⟨tr, [], false, [], false⟩) ∧
    (∀ e : KErr, rpc tr.snapshot = .error e →
      (commitOffsets rpc tr).tracker = tr ∧
      (commitOffsets rpc tr).onCommits = []) ∧
    (∀ success : List TopicPartition, ∀ e : KErr,
      rpc tr.snapshot = .ok success → checkPartitions success = some e →
      (commitOffsets rpc tr).tracker = tr ∧
      (commitOffsets rpc tr).onCommits = []) ∧
    (∀ success : List TopicPartition, tr.snapshot ≠ [] →
      rpc tr.snapshot = .ok success → checkPartitions success = none →
      (commitOffsets rpc tr).tracker
        = success.foldl (fun t i => t.remove i) tr ∧
      (commitOffsets rpc tr).onCommits.length = success.length) := by
  refine ⟨fun h => ?_, fun e he => ?_, fun success e hok hchk => ?_,
    fun success hne hok hchk => ?_⟩
  · simp [commitOffsets, h]
  · by_cases h : tr.snapshot = []
    · simp [commitOffsets, h]
    · simp [commitOffsets, List.isEmpty_iff, h, he]
  · by_cases h : tr.snapshot = []
    · simp [commitOffsets, h]
    · simp [commitOffsets, List.isEmpty_iff, h, hok, hchk]
  · constructor <;>
      simp [commitOffsets, List.isEmpty_iff, hne, hok, hchk,
        commitLoop_tracker, commitLoop_length]

/-- C10 witness: the theorem applied to the empty tracker (empty
snapshot: no RPC, no callbacks, tracker untouched). -/
theorem c10_witness :
    commitOffsets (fun l => .ok l) newOffset
      = ⟨newOffset, [], false, [], false⟩ :=
  (c10_commit_atomic (fun l => .ok l) newOffset).1 rfl

end GoLib
